import Mathlib

/-!
Shallow embedding of `src/server/server.js` (KTU Result Proxy) and proofs
about its fetch-orchestration pipeline: the retry loop `fetchWithRetries`,
the Playwright fallback `playwrightFetch`, and the orchestrator
`fetchResultForRoll` (cache lookup, concurrency gate, fallback escalation).

Modelling conventions:
* An upstream attempt (one `axios.get` call) either returns a `Response`
  or throws a `FetchErr` (a network error with no response, or an error
  carrying a response status).  The successive attempt outcomes are an
  input stream `o : Nat → Except FetchErr Response` (attempt `i` reads
  `o i`).
* `Math.random()` draws are an input stream `r : Nat → ℚ` of values in
  `[0, 1)`; `Math.round` is Mathlib's `round` (round half up, matching JS
  for the nonnegative values that occur here).
* The NodeCache instance is a function `String → Option String`; an
  expired or absent entry is `none` (NodeCache's `get` already treats
  expired entries as absent).  JS truthiness of `cache.get`'s result is
  modelled by `truthy` (`undefined` and the empty string are falsy).
* Result objects are records with `Option` fields; a key that a given
  object literal in the source does not set is `none`.
* Traces record observable effects: number of upstream attempts, backoff
  waits, whether the p-limit gate was entered, whether the fallback ran.
-/

namespace KTU

/-- An upstream HTTP response as produced by a successful transport call
(`res` of `axios.get`, or the object built by `playwrightFetch`). -/
structure Response where
  data : String
  headers : List (String × String)
deriving DecidableEq, Repr

/-- An error thrown by a transport attempt: either a network-level error
with no response (`err.response` undefined) or an error carrying a
response status (`err.response.status`). -/
inductive FetchErr where
  | noResponse (message : String)
  | withStatus (status : Nat) (message : String)
deriving DecidableEq, Repr

/-- `err.message` of a thrown transport error. -/
def FetchErr.message : FetchErr → String
  | .noResponse m => m
  | .withStatus _ m => m

/-- server.js line 66: `const isGateway = !err.response || [502, 503, 504].includes(status)`. -/
def isGateway : FetchErr → Bool
  | .noResponse _ => true
  | .withStatus s _ => s == 502 || s == 503 || s == 504

/-- server.js line 73: `const jitter = Math.round(Math.random() * 200)`,
where the argument `x` is one `Math.random()` draw. -/
def jitterOf (x : ℚ) : ℤ := round (x * 200)

/-- server.js lines 72-74: the wait before the retry that follows failed
attempt number `attempt` (1-based), with `x` the `Math.random()` draw:
`Math.round(BACKOFF_BASE * Math.pow(2, attempt - 1)) + jitter` (the first
rounding is exact on integers). -/
def waitFor (base attempt : Nat) (x : ℚ) : ℤ :=
  (base : ℤ) * 2 ^ (attempt - 1) + jitterOf x

/-- Observable trace of one `fetchWithRetries` call: the returned value or
thrown error, the total number of attempts performed, and the list of
backoff waits `(attemptNumber, waitMs)` performed between attempts. -/
structure RetryTrace where
  result : Except FetchErr Response
  attempts : Nat
  waits : List (Nat × ℤ)
deriving Repr

/-- server.js lines 51-79, the body of `fetchWithRetries`' `while (true)`
loop, entered with `attempt` attempts already performed (the JS variable
`attempt` equals this argument at the top of each iteration).  Attempt
number `attempt + 1` reads `o attempt`; on an error the counter becomes
`attempt + 1` and the loop rethrows when `!isGateway || attempt > maxRetries`,
otherwise waits `backoff + jitter` and iterates. -/
def fetchFrom (o : Nat → Except FetchErr Response) (r : Nat → ℚ)
    (base maxRetries attempt : Nat) : RetryTrace :=
  match o attempt with
  | .ok res => { result := .ok res, attempts := attempt + 1, waits := [] }
  | .error err =>
    if h : isGateway err = false ∨ maxRetries < attempt + 1 then
      { result := .error err, attempts := attempt + 1, waits := [] }
    else
      let t := fetchFrom o r base maxRetries (attempt + 1)
      { result := t.result, attempts := t.attempts,
        waits := (attempt + 1, waitFor base (attempt + 1) (r (attempt + 1))) :: t.waits }
termination_by maxRetries + 1 - attempt
decreasing_by simp only [not_or, Nat.not_lt] at h; omega

/-- server.js lines 51-79: `fetchWithRetries(url, opts, maxRetries)` with
the attempt counter starting at 0. -/
def fetchWithRetries (o : Nat → Except FetchErr Response) (r : Nat → ℚ)
    (base maxRetries : Nat) : RetryTrace :=
  fetchFrom o r base maxRetries 0

/-- server.js lines 82-94: `playwrightFetch(url)`.  The browser session
either produces the page content `html` or throws with a message; the
input `pw` is that outcome.  On success the function returns
`{ data: html, headers: { x-playwright-fallback: 1 } }`. -/
def playwrightFetch (pw : Except String String) : Except String Response :=
  match pw with
  | .ok html => .ok { data := html, headers := [("x-playwright-fallback", "1")] }
  | .error e => .error e

/-- The result object built by `fetchResultForRoll` (server.js lines
101, 110, 118, 121, 124).  A field is `none` when the object literal in
the source does not set that key (the source never sets a
`servedByFallback` key, so that field is `none` on every path). -/
structure JsResult where
  ok : Bool
  fromCache : Option Bool := none
  data : Option String := none
  headers : Option (List (String × String)) := none
  servedByFallback : Option Bool := none
  error : Option String := none
deriving DecidableEq, Repr

/-- server.js line 99: `const cacheKey = ktu:roll:(roll)`. -/
def cacheKeyFor (roll : String) : String := "ktu:roll:" ++ roll

/-- `cache.set(key, v)`: NodeCache overwrites any existing entry for the
key (server.js lines 109, 117). -/
def cacheSet (cache : String → Option String) (key v : String) :
    String → Option String :=
  fun k => if k = key then some v else cache k

/-- JS truthiness of the value returned by `cache.get` (server.js
line 101, `if (cached)`): `undefined` (absent or expired entry) and the
empty string are falsy; every other string is truthy. -/
def truthy : Option String → Bool
  | none => false
  | some s => !s.isEmpty

/-- Observable trace of one `fetchResultForRoll` call: the returned
result object, the cache after the call, whether the p-limit gate was
entered (the `limit(async () => ...)` body ran), how many upstream
attempts the primary `fetchWithRetries` performed (0 when it never ran),
and whether `playwrightFetch` was invoked. -/
structure OrchTrace where
  result : JsResult
  cache : String → Option String
  gateUsed : Bool
  primaryAttempts : Nat
  fallbackInvoked : Bool

/-- server.js lines 97-128: `fetchResultForRoll(roll)`.  Inputs beyond the
roll: the current cache, the primary attempt outcome stream `o`, the
random stream `r`, the Playwright outcome `pw`, `BACKOFF_BASE`,
`MAX_RETRIES` and the `PLAYWRIGHT_FALLBACK` flag. -/
def fetchResultForRoll (cache : String → Option String)
    (o : Nat → Except FetchErr Response) (r : Nat → ℚ)
    (pw : Except String String) (base maxRetries : Nat)
    (playwrightFallback : Bool) (roll : String) : OrchTrace :=
  let cacheKey := cacheKeyFor roll
  let cached := cache cacheKey
  if truthy cached then
    { result := { ok := true, fromCache := some true, data := cached },
      cache := cache, gateUsed := false, primaryAttempts := 0,
      fallbackInvoked := false }
  else
    let t := fetchWithRetries o r base maxRetries
    match t.result with
    | .ok resp =>
        { result := { ok := true, fromCache := some false, data := some resp.data,
                      headers := some resp.headers },
          cache := cacheSet cache cacheKey resp.data,
          gateUsed := true, primaryAttempts := t.attempts,
          fallbackInvoked := false }
    | .error err =>
        if playwrightFallback then
          match playwrightFetch pw with
          | .ok pwResp =>
              { result := { ok := true, fromCache := some false,
                            data := some pwResp.data,
                            headers := some pwResp.headers },
                cache := cacheSet cache cacheKey pwResp.data,
                gateUsed := true, primaryAttempts := t.attempts,
                fallbackInvoked := true }
          | .error pwErr =>
              { result := { ok := false, error := some pwErr },
                cache := cache, gateUsed := true, primaryAttempts := t.attempts,
                fallbackInvoked := true }
        else
          { result := { ok := false, error := some err.message },
            cache := cache, gateUsed := true, primaryAttempts := t.attempts,
            fallbackInvoked := false }

theorem fetchFrom_ok (o : Nat → Except FetchErr Response) (r : Nat → ℚ)
    (base maxRetries attempt : Nat) (res : Response)
    (h : o attempt = .ok res) :
    fetchFrom o r base maxRetries attempt =
      { result := .ok res, attempts := attempt + 1, waits := [] } := by
  unfold fetchFrom
  rw [h]

theorem fetchFrom_stop (o : Nat → Except FetchErr Response) (r : Nat → ℚ)
    (base maxRetries attempt : Nat) (err : FetchErr)
    (h : o attempt = .error err)
    (hc : isGateway err = false ∨ maxRetries < attempt + 1) :
    fetchFrom o r base maxRetries attempt =
      { result := .error err, attempts := attempt + 1, waits := [] } := by
  unfold fetchFrom
  rw [h]
  exact dif_pos hc

theorem fetchFrom_retry (o : Nat → Except FetchErr Response) (r : Nat → ℚ)
    (base maxRetries attempt : Nat) (err : FetchErr)
    (h : o attempt = .error err)
    (hg : isGateway err = true) (hle : attempt + 1 ≤ maxRetries) :
    fetchFrom o r base maxRetries attempt =
      { result := (fetchFrom o r base maxRetries (attempt + 1)).result,
        attempts := (fetchFrom o r base maxRetries (attempt + 1)).attempts,
        waits := (attempt + 1, waitFor base (attempt + 1) (r (attempt + 1))) ::
          (fetchFrom o r base maxRetries (attempt + 1)).waits } := by
  conv_lhs => unfold fetchFrom
  rw [h]
  refine dif_neg ?_
  rintro (hfalse | hlt)
  · rw [hg] at hfalse
    exact Bool.noConfusion hfalse
  · omega

/-- Main loop invariant of `fetchFrom`, proved by induction on the fuel
bound `k`: the attempt count strictly grows, is bounded by
`maxRetries + 1` when entered within budget, the returned value is the
outcome of the last attempt performed, and every non-final attempt
failed with a gateway-classified error. -/
theorem fetchFrom_spec (o : Nat → Except FetchErr Response) (r : Nat → ℚ)
    (base maxRetries : Nat) :
    ∀ k attempt, maxRetries + 1 - attempt ≤ k →
      attempt + 1 ≤ (fetchFrom o r base maxRetries attempt).attempts
      ∧ (attempt ≤ maxRetries →
          (fetchFrom o r base maxRetries attempt).attempts ≤ maxRetries + 1)
      ∧ ((∃ res, (fetchFrom o r base maxRetries attempt).result = .ok res
            ∧ o ((fetchFrom o r base maxRetries attempt).attempts - 1) = .ok res)
         ∨ (∃ e, (fetchFrom o r base maxRetries attempt).result = .error e
            ∧ o ((fetchFrom o r base maxRetries attempt).attempts - 1) = .error e))
      ∧ (∀ i, attempt ≤ i → i + 1 < (fetchFrom o r base maxRetries attempt).attempts →
          ∃ e, o i = .error e ∧ isGateway e = true) := by
  intro k
  induction k with
  | zero =>
    intro a ha
    rcases ho : o a with err | res
    · rw [fetchFrom_stop o r base maxRetries a err ho (Or.inr (by omega))]
      dsimp only
      refine ⟨le_refl _, fun ham => by omega, ?_, fun i hia hlt => by omega⟩
      exact Or.inr ⟨err, rfl, by simpa using ho⟩
    · rw [fetchFrom_ok o r base maxRetries a res ho]
      dsimp only
      refine ⟨le_refl _, fun ham => by omega, ?_, fun i hia hlt => by omega⟩
      exact Or.inl ⟨res, rfl, by simpa using ho⟩
  | succ k ih =>
    intro a ha
    rcases ho : o a with err | res
    · by_cases hc : isGateway err = false ∨ maxRetries < a + 1
      · rw [fetchFrom_stop o r base maxRetries a err ho hc]
        dsimp only
        refine ⟨le_refl _, fun ham => ?_, ?_, fun i hia hlt => by omega⟩
        · rcases hc with hc | hc
          · omega
          · omega
        · exact Or.inr ⟨err, rfl, by simpa using ho⟩
      · have hg : isGateway err = true := by
          rcases hh : isGateway err with _ | _
          · exact absurd (Or.inl hh) hc
          · rfl
        have hle : a + 1 ≤ maxRetries := by
          rcases Nat.lt_or_ge maxRetries (a + 1) with hx | hx
          · exact absurd (Or.inr hx) hc
          · exact hx
        rw [fetchFrom_retry o r base maxRetries a err ho hg hle]
        dsimp only
        obtain ⟨ih1, ih2, ih3, ih4⟩ := ih (a + 1) (by omega)
        refine ⟨by omega, fun _ => ih2 (by omega), ih3, ?_⟩
        intro i hia hlt
        by_cases hi : i = a
        · exact ⟨err, hi ▸ ho, hg⟩
        · exact ih4 i (by omega) hlt
    · rw [fetchFrom_ok o r base maxRetries a res ho]
      dsimp only
      refine ⟨le_refl _, fun ham => by omega, ?_, fun i hia hlt => by omega⟩
      exact Or.inl ⟨res, rfl, by simpa using ho⟩

/-- Every backoff wait recorded by `fetchFrom` is the wait computed for
some attempt number `n ≥ 1` from the `n`-th random draw. -/
theorem fetchFrom_waits_shape (o : Nat → Except FetchErr Response) (r : Nat → ℚ)
    (base maxRetries : Nat) :
    ∀ k attempt, maxRetries + 1 - attempt ≤ k →
      ∀ p ∈ (fetchFrom o r base maxRetries attempt).waits,
        ∃ n, 1 ≤ n ∧ p = (n, waitFor base n (r n)) := by
  intro k
  induction k with
  | zero =>
    intro a ha p hp
    rcases ho : o a with err | res
    · rw [fetchFrom_stop o r base maxRetries a err ho (Or.inr (by omega))] at hp
      simp at hp
    · rw [fetchFrom_ok o r base maxRetries a res ho] at hp
      simp at hp
  | succ k ih =>
    intro a ha p hp
    rcases ho : o a with err | res
    · by_cases hc : isGateway err = false ∨ maxRetries < a + 1
      · rw [fetchFrom_stop o r base maxRetries a err ho hc] at hp
        simp at hp
      · have hg : isGateway err = true := by
          rcases hh : isGateway err with _ | _
          · exact absurd (Or.inl hh) hc
          · rfl
        have hle : a + 1 ≤ maxRetries := by
          rcases Nat.lt_or_ge maxRetries (a + 1) with hx | hx
          · exact absurd (Or.inr hx) hc
          · exact hx
        rw [fetchFrom_retry o r base maxRetries a err ho hg hle] at hp
        rcases List.mem_cons.mp hp with hp | hp
        · exact ⟨a + 1, by omega, hp⟩
        · exact ih (a + 1) (by omega) p hp
    · rw [fetchFrom_ok o r base maxRetries a res ho] at hp
      simp at hp

/-- The jitter of a `Math.random()` draw `x ∈ [0, 1)` lies in `[0, 200]`
(it attains 200 for draws in `[0.9975, 1)`). -/
theorem jitterOf_bounds (x : ℚ) (h0 : 0 ≤ x) (h1 : x < 1) :
    0 ≤ jitterOf x ∧ jitterOf x ≤ 200 := by
  constructor
  · rw [jitterOf, round_eq]
    refine Int.floor_nonneg.mpr ?_
    nlinarith
  · rw [jitterOf, round_eq]
    have hx : x * 200 + 1 / 2 < 201 := by nlinarith
    have hfl : ⌊x * 200 + 1 / 2⌋ < 201 := by
      refine Int.floor_lt.mpr ?_
      push_cast
      linarith
    omega

/-- C9: for every nonnegative `maxRetries` and every sequence of upstream
outcomes, the `while (true)` retry loop terminates, performing at least 1
and at most `maxRetries + 1` attempts, and returns the outcome of its
last attempt (the first success, or the error it finally rethrows). -/
theorem retry_loop_bounded (o : Nat → Except FetchErr Response) (r : Nat → ℚ)
    (base maxRetries : Nat) :
    1 ≤ (fetchWithRetries o r base maxRetries).attempts
    ∧ (fetchWithRetries o r base maxRetries).attempts ≤ maxRetries + 1
    ∧ ((∃ res, (fetchWithRetries o r base maxRetries).result = .ok res
          ∧ o ((fetchWithRetries o r base maxRetries).attempts - 1) = .ok res)
       ∨ (∃ e, (fetchWithRetries o r base maxRetries).result = .error e
          ∧ o ((fetchWithRetries o r base maxRetries).attempts - 1) = .error e))
    ∧ (∀ i, i + 1 < (fetchWithRetries o r base maxRetries).attempts →
        ∃ e, o i = .error e ∧ isGateway e = true) := by
  obtain ⟨h1, h2, h3, h4⟩ :=
    fetchFrom_spec o r base maxRetries (maxRetries + 1) 0 (by omega)
  rw [fetchWithRetries]
  exact ⟨h1, h2 (by omega), h3, fun i hi => h4 i (by omega) hi⟩

/-- C1: with `maxRetries = 3`, four consecutive transient failures give
exactly 4 attempts (1 initial + 3 retries) and the fourth failure is
returned; two transient failures followed by a success give exactly 3
attempts and the success; with `maxRetries = 0` exactly one attempt is
performed and no backoff wait happens. -/
theorem retry_attempt_counts
    (o1 o2 o3 : Nat → Except FetchErr Response) (e : Nat → FetchErr)
    (r : Nat → ℚ) (base : Nat) (resp : Response)
    (h1 : ∀ i, i < 4 → o1 i = .error (e i) ∧ isGateway (e i) = true)
    (h20 : o2 0 = .error (e 0)) (h21 : o2 1 = .error (e 1))
    (h22 : o2 2 = .ok resp)
    (hg0 : isGateway (e 0) = true) (hg1 : isGateway (e 1) = true) :
    ((fetchWithRetries o1 r base 3).attempts = 4
      ∧ (fetchWithRetries o1 r base 3).result = .error (e 3))
    ∧ ((fetchWithRetries o2 r base 3).attempts = 3
      ∧ (fetchWithRetries o2 r base 3).result = .ok resp)
    ∧ ((fetchWithRetries o3 r base 0).attempts = 1
      ∧ (fetchWithRetries o3 r base 0).waits = []) := by
  refine ⟨?_, ?_, ?_⟩
  · rw [fetchWithRetries,
        fetchFrom_retry o1 r base 3 0 (e 0) (h1 0 (by omega)).1 (h1 0 (by omega)).2 (by omega),
        fetchFrom_retry o1 r base 3 1 (e 1) (h1 1 (by omega)).1 (h1 1 (by omega)).2 (by omega),
        fetchFrom_retry o1 r base 3 2 (e 2) (h1 2 (by omega)).1 (h1 2 (by omega)).2 (by omega),
        fetchFrom_stop o1 r base 3 3 (e 3) (h1 3 (by omega)).1 (Or.inr (by omega))]
    exact ⟨rfl, rfl⟩
  · rw [fetchWithRetries,
        fetchFrom_retry o2 r base 3 0 (e 0) h20 hg0 (by omega),
        fetchFrom_retry o2 r base 3 1 (e 1) h21 hg1 (by omega),
        fetchFrom_ok o2 r base 3 2 resp h22]
    exact ⟨rfl, rfl⟩
  · rcases ho : o3 0 with e3 | res3
    · rw [fetchWithRetries, fetchFrom_stop o3 r base 0 0 e3 ho (Or.inr (by omega))]
      exact ⟨rfl, rfl⟩
    · rw [fetchWithRetries, fetchFrom_ok o3 r base 0 0 res3 ho]
      exact ⟨rfl, rfl⟩

/-- Witness for C1 at concrete inputs: 503 errors throughout for the
first run, 503-503-200 for the second, an immediate success for the
third. -/
theorem retry_attempt_counts_witness :
    ((fetchWithRetries (fun _ => .error (.withStatus 503 "Service Unavailable"))
        (fun _ => 0) 300 3).attempts = 4
      ∧ (fetchWithRetries (fun _ => .error (.withStatus 503 "Service Unavailable"))
          (fun _ => 0) 300 3).result = .error (.withStatus 503 "Service Unavailable"))
    ∧ ((fetchWithRetries
          (fun i => if i < 2 then .error (.withStatus 503 "Service Unavailable")
                    else .ok ⟨"payload", [("content-type", "text/html")]⟩)
          (fun _ => 0) 300 3).attempts = 3
      ∧ (fetchWithRetries
          (fun i => if i < 2 then .error (.withStatus 503 "Service Unavailable")
                    else .ok ⟨"payload", [("content-type", "text/html")]⟩)
          (fun _ => 0) 300 3).result = .ok ⟨"payload", [("content-type", "text/html")]⟩)
    ∧ ((fetchWithRetries (fun _ => .ok ⟨"payload", [("content-type", "text/html")]⟩)
          (fun _ => 0) 300 0).attempts = 1
      ∧ (fetchWithRetries (fun _ => .ok ⟨"payload", [("content-type", "text/html")]⟩)
          (fun _ => 0) 300 0).waits = []) :=
  retry_attempt_counts
    (fun _ => .error (.withStatus 503 "Service Unavailable"))
    (fun i => if i < 2 then .error (.withStatus 503 "Service Unavailable")
              else .ok ⟨"payload", [("content-type", "text/html")]⟩)
    (fun _ => .ok ⟨"payload", [("content-type", "text/html")]⟩)
    (fun _ => .withStatus 503 "Service Unavailable")
    (fun _ => 0) 300 ⟨"payload", [("content-type", "text/html")]⟩
    (fun i _ => ⟨rfl, rfl⟩) rfl rfl rfl (by decide) (by decide)

/-- C5: a first-attempt failure that is not gateway-classified (for
example a 404 response) is terminal: exactly one attempt is performed,
no backoff wait happens, and the failure is rethrown immediately. -/
theorem terminal_no_retry (o : Nat → Except FetchErr Response) (r : Nat → ℚ)
    (base maxRetries : Nat) (e : FetchErr)
    (h0 : o 0 = .error e) (hterm : isGateway e = false) :
    fetchWithRetries o r base maxRetries =
      { result := .error e, attempts := 1, waits := [] } := by
  rw [fetchWithRetries, fetchFrom_stop o r base maxRetries 0 e h0 (Or.inl hterm)]

/-- Witness for C5 at a concrete input: a 404 on the first attempt with
`maxRetries = 5`. -/
theorem terminal_no_retry_witness :
    fetchWithRetries (fun _ => .error (.withStatus 404 "Not Found")) (fun _ => 0) 300 5
      = { result := .error (.withStatus 404 "Not Found"), attempts := 1, waits := [] } :=
  terminal_no_retry (fun _ => .error (.withStatus 404 "Not Found")) (fun _ => 0)
    300 5 (.withStatus 404 "Not Found") rfl (by decide)

/-- C3 counterexample: with base 300 and first random draw 399/400
(= 0.9975, a legal `Math.random()` value), the wait before the first
retry is exactly 500 = 300*2^(1-1) + 200, which the claimed half-open
interval `[base*2^(n-1), base*2^(n-1)+200)` excludes:
`Math.round(0.9975 * 200) = 200`, not `< 200`. -/
theorem backoff_upper_end_attained_cex :
    (1, 500) ∈ (fetchWithRetries (fun _ => .error (.withStatus 503 "u"))
        (fun _ => 399 / 400) 300 1).waits
    ∧ (0 ≤ (399 : ℚ) / 400 ∧ (399 : ℚ) / 400 < 1)
    ∧ ¬((500 : ℤ) < 300 * 2 ^ (1 - 1) + 200) := by
  refine ⟨?_, by norm_num, by norm_num⟩
  rw [fetchWithRetries,
      fetchFrom_retry _ _ _ _ _ _ rfl (by decide) (by omega),
      fetchFrom_stop _ _ _ _ _ _ rfl (Or.inr (by omega))]
  norm_num [waitFor, jitterOf, round_eq]

/-- C3 (amended: the interval is closed at the top): when every random
draw lies in [0, 1), every backoff wait recorded for attempt number `n`
lies in the closed interval `[base*2^(n-1), base*2^(n-1) + 200]`, and
`n ≥ 1`. -/
theorem backoff_delay_bounds (o : Nat → Except FetchErr Response) (r : Nat → ℚ)
    (base maxRetries n : Nat) (w : ℤ)
    (hr : ∀ k, 0 ≤ r k ∧ r k < 1)
    (hmem : (n, w) ∈ (fetchWithRetries o r base maxRetries).waits) :
    1 ≤ n ∧ (base : ℤ) * 2 ^ (n - 1) ≤ w
      ∧ w ≤ (base : ℤ) * 2 ^ (n - 1) + 200 := by
  rw [fetchWithRetries] at hmem
  obtain ⟨m, hm1, hmeq⟩ :=
    fetchFrom_waits_shape o r base maxRetries (maxRetries + 1) 0 (by omega) _ hmem
  obtain ⟨rfl, rfl⟩ := Prod.mk.inj hmeq
  obtain ⟨hj0, hj200⟩ := jitterOf_bounds (r n) (hr n).1 (hr n).2
  rw [waitFor]
  exact ⟨hm1, by linarith, by linarith⟩

/-- Witness for the amended C3 at a concrete input: draw 1/2 gives
jitter 100 and wait 400 before the first retry. -/
theorem backoff_delay_bounds_witness :
    (1, 400) ∈ (fetchWithRetries (fun _ => .error (.withStatus 503 "u"))
        (fun _ => 1 / 2) 300 1).waits
    ∧ (1 ≤ 1 ∧ (300 : ℤ) * 2 ^ (1 - 1) ≤ 400
        ∧ (400 : ℤ) ≤ 300 * 2 ^ (1 - 1) + 200) := by
  have hmem : ((1 : Nat), (400 : ℤ)) ∈
      (fetchWithRetries (fun _ => .error (.withStatus 503 "u"))
        (fun _ => 1 / 2) 300 1).waits := by
    rw [fetchWithRetries,
        fetchFrom_retry _ _ _ _ _ _ rfl (by decide) (by omega),
        fetchFrom_stop _ _ _ _ _ _ rfl (Or.inr (by omega))]
    norm_num [waitFor, jitterOf, round_eq]
  exact ⟨hmem, backoff_delay_bounds _ _ 300 1 1 400
    (fun k => ⟨by norm_num, by norm_num⟩) hmem⟩

/-- Cache-hit branch of `fetchResultForRoll` (server.js lines 100-101):
when the cached value is truthy the result is served from the cache with
no gate use, no upstream attempt and no fallback. -/
theorem fetchResultForRoll_hit (cache : String → Option String)
    (o : Nat → Except FetchErr Response) (r : Nat → ℚ)
    (pw : Except String String) (base maxRetries : Nat)
    (pf : Bool) (roll : String)
    (h : truthy (cache (cacheKeyFor roll)) = true) :
    fetchResultForRoll cache o r pw base maxRetries pf roll =
      { result := { ok := true, fromCache := some true,
                    data := cache (cacheKeyFor roll) },
        cache := cache, gateUsed := false, primaryAttempts := 0,
        fallbackInvoked := false } := by
  simp [fetchResultForRoll, h]

/-- Primary-success branch of `fetchResultForRoll` (server.js lines
107-110). -/
theorem fetchResultForRoll_primary_ok (cache : String → Option String)
    (o : Nat → Except FetchErr Response) (r : Nat → ℚ)
    (pw : Except String String) (base maxRetries : Nat)
    (pf : Bool) (roll : String) (resp : Response)
    (h : truthy (cache (cacheKeyFor roll)) = false)
    (hres : (fetchWithRetries o r base maxRetries).result = .ok resp) :
    fetchResultForRoll cache o r pw base maxRetries pf roll =
      { result := { ok := true, fromCache := some false, data := some resp.data,
                    headers := some resp.headers },
        cache := cacheSet cache (cacheKeyFor roll) resp.data,
        gateUsed := true,
        primaryAttempts := (fetchWithRetries o r base maxRetries).attempts,
        fallbackInvoked := false } := by
  simp [fetchResultForRoll, h, hres]

/-- Primary-failure branch with the fallback disabled (server.js lines
123-125). -/
theorem fetchResultForRoll_noFallback (cache : String → Option String)
    (o : Nat → Except FetchErr Response) (r : Nat → ℚ)
    (pw : Except String String) (base maxRetries : Nat)
    (roll : String) (err : FetchErr)
    (h : truthy (cache (cacheKeyFor roll)) = false)
    (hres : (fetchWithRetries o r base maxRetries).result = .error err) :
    fetchResultForRoll cache o r pw base maxRetries false roll =
      { result := { ok := false, error := some err.message },
        cache := cache, gateUsed := true,
        primaryAttempts := (fetchWithRetries o r base maxRetries).attempts,
        fallbackInvoked := false } := by
  simp [fetchResultForRoll, h, hres]

/-- Primary-failure branch with the fallback enabled and the Playwright
fetch succeeding (server.js lines 114-118). -/
theorem fetchResultForRoll_fallback_ok (cache : String → Option String)
    (o : Nat → Except FetchErr Response) (r : Nat → ℚ)
    (base maxRetries : Nat) (roll : String) (err : FetchErr) (html : String)
    (h : truthy (cache (cacheKeyFor roll)) = false)
    (hres : (fetchWithRetries o r base maxRetries).result = .error err) :
    fetchResultForRoll cache o r (.ok html) base maxRetries true roll =
      { result := { ok := true, fromCache := some false, data := some html,
                    headers := some [("x-playwright-fallback", "1")] },
        cache := cacheSet cache (cacheKeyFor roll) html,
        gateUsed := true,
        primaryAttempts := (fetchWithRetries o r base maxRetries).attempts,
        fallbackInvoked := true } := by
  simp [fetchResultForRoll, h, hres, playwrightFetch]

/-- Primary-failure branch with the fallback enabled and the Playwright
fetch also failing (server.js lines 119-122). -/
theorem fetchResultForRoll_fallback_err (cache : String → Option String)
    (o : Nat → Except FetchErr Response) (r : Nat → ℚ)
    (base maxRetries : Nat) (roll : String) (err : FetchErr) (pwErr : String)
    (h : truthy (cache (cacheKeyFor roll)) = false)
    (hres : (fetchWithRetries o r base maxRetries).result = .error err) :
    fetchResultForRoll cache o r (.error pwErr) base maxRetries true roll =
      { result := { ok := false, error := some pwErr },
        cache := cache, gateUsed := true,
        primaryAttempts := (fetchWithRetries o r base maxRetries).attempts,
        fallbackInvoked := true } := by
  simp [fetchResultForRoll, h, hres, playwrightFetch]

/-- C6 counterexample: a live cache entry whose value is the empty
string is treated as a miss — `if (cached)` is falsy on `""` — so
`resolve` enters the admission gate and performs an upstream attempt
instead of serving the entry with `fromCache = true`. -/
theorem cache_hit_empty_value_cex :
    (fun k => if k = cacheKeyFor "KTU123" then some "" else none) (cacheKeyFor "KTU123")
      = some ""
    ∧ (fetchResultForRoll
        (fun k => if k = cacheKeyFor "KTU123" then some "" else none)
        (fun _ => .ok ⟨"body", []⟩) (fun _ => 0) (.error "pw") 300 5 false
        "KTU123").gateUsed = true
    ∧ (fetchResultForRoll
        (fun k => if k = cacheKeyFor "KTU123" then some "" else none)
        (fun _ => .ok ⟨"body", []⟩) (fun _ => 0) (.error "pw") 300 5 false
        "KTU123").result.fromCache = some false
    ∧ (fetchResultForRoll
        (fun k => if k = cacheKeyFor "KTU123" then some "" else none)
        (fun _ => .ok ⟨"body", []⟩) (fun _ => 0) (.error "pw") 300 5 false
        "KTU123").primaryAttempts = 1 := by
  have hres : (fetchWithRetries (fun _ => .ok (⟨"body", []⟩ : Response))
      (fun _ => (0 : ℚ)) 300 5).result = .ok ⟨"body", []⟩ := by
    rw [fetchWithRetries, fetchFrom_ok _ _ _ _ _ _ rfl]
  have hatt : (fetchWithRetries (fun _ => .ok (⟨"body", []⟩ : Response))
      (fun _ => (0 : ℚ)) 300 5).attempts = 1 := by
    rw [fetchWithRetries, fetchFrom_ok _ _ _ _ _ _ rfl]
  rw [fetchResultForRoll_primary_ok _ _ _ _ _ _ _ _ _ (by decide) hres]
  exact ⟨by decide, rfl, rfl, hatt⟩

/-- C6 (amended: the live entry's value must be non-empty): for every
key with a live cache entry holding a non-empty value, `resolve` returns
that value with `fromCache = true`, performs no upstream attempt, never
enters the admission gate, never invokes the fallback, and leaves the
cache unchanged. -/
theorem cache_hit_served (cache : String → Option String)
    (o : Nat → Except FetchErr Response) (r : Nat → ℚ)
    (pw : Except String String) (base maxRetries : Nat)
    (pf : Bool) (roll v : String)
    (h : cache (cacheKeyFor roll) = some v) (hv : v ≠ "") :
    fetchResultForRoll cache o r pw base maxRetries pf roll =
      { result := { ok := true, fromCache := some true, data := some v },
        cache := cache, gateUsed := false, primaryAttempts := 0,
        fallbackInvoked := false } := by
  have hb : v.isEmpty = false := by
    rcases hb2 : v.isEmpty with _ | _
    · rfl
    · exact absurd ((String.isEmpty_iff v).mp hb2) hv
  have ht : truthy (cache (cacheKeyFor roll)) = true := by
    rw [h]
    simp [truthy, hb]
  rw [fetchResultForRoll_hit _ _ _ _ _ _ _ _ ht, h]

/-- Witness for the amended C6 at a concrete input: a cached non-empty
body is served with no gate use and no upstream attempt. -/
theorem cache_hit_served_witness :
    fetchResultForRoll (fun k => if k = cacheKeyFor "KTU123" then some "stored-html" else none)
      (fun _ => .error (.withStatus 503 "u")) (fun _ => 0) (.error "pw") 300 5 false "KTU123"
      = { result := { ok := true, fromCache := some true, data := some "stored-html" },
          cache := fun k => if k = cacheKeyFor "KTU123" then some "stored-html" else none,
          gateUsed := false, primaryAttempts := 0, fallbackInvoked := false } :=
  cache_hit_served (fun k => if k = cacheKeyFor "KTU123" then some "stored-html" else none)
    (fun _ => .error (.withStatus 503 "u")) (fun _ => 0) (.error "pw") 300 5 false
    "KTU123" "stored-html" (by decide) (by decide)

/-- Any cache-miss call of `fetchResultForRoll` enters the admission
gate and performs at least one upstream attempt, whatever the outcomes
and fallback configuration. -/
theorem fetchResultForRoll_miss_gate (cache : String → Option String)
    (o : Nat → Except FetchErr Response) (r : Nat → ℚ)
    (pw : Except String String) (base maxRetries : Nat)
    (pf : Bool) (roll : String)
    (h : truthy (cache (cacheKeyFor roll)) = false) :
    (fetchResultForRoll cache o r pw base maxRetries pf roll).gateUsed = true
    ∧ 1 ≤ (fetchResultForRoll cache o r pw base maxRetries pf roll).primaryAttempts := by
  have hpos : 1 ≤ (fetchWithRetries o r base maxRetries).attempts := by
    have h1 := (fetchFrom_spec o r base maxRetries (maxRetries + 1) 0 (by omega)).1
    rw [fetchWithRetries]
    omega
  rcases hres : (fetchWithRetries o r base maxRetries).result with err | resp
  · cases pf
    · rw [fetchResultForRoll_noFallback _ _ _ _ _ _ _ _ h hres]
      exact ⟨rfl, hpos⟩
    · rcases pw with pwErr | html
      · rw [fetchResultForRoll_fallback_err _ _ _ _ _ _ _ _ h hres]
        exact ⟨rfl, hpos⟩
      · rw [fetchResultForRoll_fallback_ok _ _ _ _ _ _ _ _ h hres]
        exact ⟨rfl, hpos⟩
  · rw [fetchResultForRoll_primary_ok _ _ _ _ _ _ _ _ _ h hres]
    exact ⟨rfl, hpos⟩

/-- C4: a `resolve` call that returns a failure leaves the whole cache
exactly as it was (no error path writes the cache), so a subsequent
`resolve` for the same roll enters the admission gate and performs at
least one fresh upstream attempt instead of being answered from the
cache. -/
theorem failure_not_cached (cache : String → Option String)
    (o o2 : Nat → Except FetchErr Response) (r r2 : Nat → ℚ)
    (pw pw2 : Except String String) (base maxRetries base2 maxRetries2 : Nat)
    (pf pf2 : Bool) (roll : String)
    (h : (fetchResultForRoll cache o r pw base maxRetries pf roll).result.ok = false) :
    (fetchResultForRoll cache o r pw base maxRetries pf roll).cache = cache
    ∧ (fetchResultForRoll ((fetchResultForRoll cache o r pw base maxRetries pf roll).cache)
        o2 r2 pw2 base2 maxRetries2 pf2 roll).gateUsed = true
    ∧ 1 ≤ (fetchResultForRoll ((fetchResultForRoll cache o r pw base maxRetries pf roll).cache)
        o2 r2 pw2 base2 maxRetries2 pf2 roll).primaryAttempts := by
  rcases htt : truthy (cache (cacheKeyFor roll)) with _ | _
  · have hcache : (fetchResultForRoll cache o r pw base maxRetries pf roll).cache = cache := by
      rcases hres : (fetchWithRetries o r base maxRetries).result with err | resp
      · cases pf
        · rw [fetchResultForRoll_noFallback _ _ _ _ _ _ _ _ htt hres]
        · rcases hpw : pw with pwErr | html
          · rw [fetchResultForRoll_fallback_err _ _ _ _ _ _ _ _ htt hres]
          · rw [hpw] at h
            rw [fetchResultForRoll_fallback_ok _ _ _ _ _ _ _ _ htt hres] at h
            simp at h
      · rw [fetchResultForRoll_primary_ok _ _ _ _ _ _ _ _ _ htt hres] at h
        simp at h
    refine ⟨hcache, ?_, ?_⟩
    · rw [hcache]
      exact (fetchResultForRoll_miss_gate cache o2 r2 pw2 base2 maxRetries2 pf2 roll htt).1
    · rw [hcache]
      exact (fetchResultForRoll_miss_gate cache o2 r2 pw2 base2 maxRetries2 pf2 roll htt).2
  · rw [fetchResultForRoll_hit _ _ _ _ _ _ _ _ htt] at h
    simp at h

/-- Witness for C4 at a concrete input: a 404 failure with the fallback
disabled leaves the empty cache unchanged and the next call for the same
roll goes back upstream. -/
theorem failure_not_cached_witness :
    (fetchResultForRoll (fun _ => none) (fun _ => .error (.withStatus 404 "Not Found"))
        (fun _ => 0) (.error "pw") 300 3 false "KTU123").cache = (fun _ => none)
    ∧ (fetchResultForRoll
        ((fetchResultForRoll (fun _ => none) (fun _ => .error (.withStatus 404 "Not Found"))
          (fun _ => 0) (.error "pw") 300 3 false "KTU123").cache)
        (fun _ => .ok ⟨"body", []⟩) (fun _ => 0) (.error "pw") 300 3 false
        "KTU123").gateUsed = true
    ∧ 1 ≤ (fetchResultForRoll
        ((fetchResultForRoll (fun _ => none) (fun _ => .error (.withStatus 404 "Not Found"))
          (fun _ => 0) (.error "pw") 300 3 false "KTU123").cache)
        (fun _ => .ok ⟨"body", []⟩) (fun _ => 0) (.error "pw") 300 3 false
        "KTU123").primaryAttempts := by
  have hres : (fetchWithRetries (fun _ => .error (.withStatus 404 "Not Found"))
      (fun _ => (0 : ℚ)) 300 3).result = .error (.withStatus 404 "Not Found") := by
    rw [fetchWithRetries, fetchFrom_stop _ _ _ _ _ _ rfl (Or.inl (by decide))]
  have h : (fetchResultForRoll (fun _ => none)
      (fun _ => .error (.withStatus 404 "Not Found")) (fun _ => 0) (.error "pw")
      300 3 false "KTU123").result.ok = false := by
    rw [fetchResultForRoll_noFallback _ _ _ _ _ _ _ _ (by decide) hres]
  exact failure_not_cached (fun _ => none)
    (fun _ => .error (.withStatus 404 "Not Found")) (fun _ => .ok ⟨"body", []⟩)
    (fun _ => 0) (fun _ => 0) (.error "pw") (.error "pw") 300 3 300 3 false false
    "KTU123" h

/-- C2 counterexample: with the fallback enabled, a terminal 404 failure
on the first attempt still invokes the Playwright fallback, although the
retry budget of 3 was untouched (1 attempt, not 4) and the failure is
not gateway-classified — the secondary is not reserved for transient
failures that survived all retries. -/
theorem fallback_on_terminal_failure_cex :
    (fetchResultForRoll (fun _ => none) (fun _ => .error (.withStatus 404 "Not Found"))
        (fun _ => 0) (.ok "rendered") 300 3 true "KTU123").fallbackInvoked = true
    ∧ (fetchResultForRoll (fun _ => none) (fun _ => .error (.withStatus 404 "Not Found"))
        (fun _ => 0) (.ok "rendered") 300 3 true "KTU123").primaryAttempts = 1
    ∧ (1 : Nat) ≠ 3 + 1
    ∧ isGateway (.withStatus 404 "Not Found") = false := by
  have hres : (fetchWithRetries (fun _ => .error (.withStatus 404 "Not Found"))
      (fun _ => (0 : ℚ)) 300 3).result = .error (.withStatus 404 "Not Found") := by
    rw [fetchWithRetries, fetchFrom_stop _ _ _ _ _ _ rfl (Or.inl (by decide))]
  have hatt : (fetchWithRetries (fun _ => .error (.withStatus 404 "Not Found"))
      (fun _ => (0 : ℚ)) 300 3).attempts = 1 := by
    rw [fetchWithRetries, fetchFrom_stop _ _ _ _ _ _ rfl (Or.inl (by decide))]
  rw [fetchResultForRoll_fallback_ok _ _ _ _ _ _ _ _ (by decide) hres]
  exact ⟨rfl, hatt, by omega, by decide⟩

/-- C2 (amended: the secondary runs on any primary failure, terminal ones
included, not only after the retry budget is exhausted): the fallback is
invoked exactly when `fallbackEnabled` is true, the cache lookup misses,
and the primary fetch fails for any reason; and with `fallbackEnabled`
false the fallback never runs and the primary's failure is returned
directly, carrying the primary error's message. -/
theorem fallback_invocation_policy (cache : String → Option String)
    (o : Nat → Except FetchErr Response) (r : Nat → ℚ)
    (pw : Except String String) (base maxRetries : Nat)
    (pf : Bool) (roll : String) :
    ((fetchResultForRoll cache o r pw base maxRetries pf roll).fallbackInvoked = true
      ↔ (pf = true ∧ truthy (cache (cacheKeyFor roll)) = false
          ∧ ∃ e, (fetchWithRetries o r base maxRetries).result = .error e))
    ∧ (pf = false →
        (fetchResultForRoll cache o r pw base maxRetries pf roll).fallbackInvoked = false
        ∧ ∀ e, (fetchWithRetries o r base maxRetries).result = .error e →
            truthy (cache (cacheKeyFor roll)) = false →
            (fetchResultForRoll cache o r pw base maxRetries pf roll).result
              = { ok := false, error := some (FetchErr.message e) }) := by
  rcases htt : truthy (cache (cacheKeyFor roll)) with _ | _
  · rcases hres : (fetchWithRetries o r base maxRetries).result with err | resp
    · cases pf
      · rw [fetchResultForRoll_noFallback _ _ _ _ _ _ _ _ htt hres]
        refine ⟨by simp, fun _ => ⟨rfl, fun e he hm => ?_⟩⟩
        cases he
        rfl
      · rcases pw with pwErr | html
        · rw [fetchResultForRoll_fallback_err _ _ _ _ _ _ _ _ htt hres]
          exact ⟨⟨fun _ => ⟨rfl, rfl, err, rfl⟩, fun _ => rfl⟩,
            fun hpf => Bool.noConfusion hpf⟩
        · rw [fetchResultForRoll_fallback_ok _ _ _ _ _ _ _ _ htt hres]
          exact ⟨⟨fun _ => ⟨rfl, rfl, err, rfl⟩, fun _ => rfl⟩,
            fun hpf => Bool.noConfusion hpf⟩
    · rw [fetchResultForRoll_primary_ok _ _ _ _ _ _ _ _ _ htt hres]
      refine ⟨⟨fun hfalse => Bool.noConfusion hfalse, ?_⟩,
        fun _ => ⟨rfl, fun e he hm => ?_⟩⟩
      · rintro ⟨hpf, hm, e, he⟩
        exact Except.noConfusion he
      · exact Except.noConfusion he
  · rw [fetchResultForRoll_hit _ _ _ _ _ _ _ _ htt]
    refine ⟨⟨fun hfalse => Bool.noConfusion hfalse, ?_⟩,
      fun _ => ⟨rfl, fun e he hm => ?_⟩⟩
    · rintro ⟨hpf, hm, e, he⟩
      exact Bool.noConfusion hm
    · exact Bool.noConfusion hm

/-- Witness for the amended C2 at concrete inputs: with the fallback
disabled and a transient failure that exhausts a budget of 0 retries,
the fallback is not invoked and the primary's failure message is
returned. -/
theorem fallback_invocation_policy_witness :
    ((fetchResultForRoll (fun _ => none) (fun _ => .error (.withStatus 503 "boom"))
        (fun _ => 0) (.error "pw") 300 0 false "KTU123").fallbackInvoked = true
      ↔ (false = true
          ∧ truthy ((fun _ => (none : Option String)) (cacheKeyFor "KTU123")) = false
          ∧ ∃ e, (fetchWithRetries (fun _ => .error (.withStatus 503 "boom"))
              (fun _ => 0) 300 0).result = .error e))
    ∧ (false = false →
        (fetchResultForRoll (fun _ => none) (fun _ => .error (.withStatus 503 "boom"))
          (fun _ => 0) (.error "pw") 300 0 false "KTU123").fallbackInvoked = false
        ∧ ∀ e, (fetchWithRetries (fun _ => .error (.withStatus 503 "boom"))
              (fun _ => 0) 300 0).result = .error e →
            truthy ((fun _ => (none : Option String)) (cacheKeyFor "KTU123")) = false →
            (fetchResultForRoll (fun _ => none) (fun _ => .error (.withStatus 503 "boom"))
              (fun _ => 0) (.error "pw") 300 0 false "KTU123").result
              = { ok := false, error := some (FetchErr.message e) }) :=
  fallback_invocation_policy (fun _ => none) (fun _ => .error (.withStatus 503 "boom"))
    (fun _ => 0) (.error "pw") 300 0 false "KTU123"

/-- C7: when the fallback is enabled and both the primary fetch (after
its retries) and the Playwright fallback fail, the returned failure
carries the fallback's error message; in particular whenever the two
messages differ the primary's message is not the one returned. -/
theorem fallback_reason_wins (cache : String → Option String)
    (o : Nat → Except FetchErr Response) (r : Nat → ℚ)
    (base maxRetries : Nat) (roll : String) (err : FetchErr) (pwErr : String)
    (hmiss : truthy (cache (cacheKeyFor roll)) = false)
    (hres : (fetchWithRetries o r base maxRetries).result = .error err) :
    (fetchResultForRoll cache o r (.error pwErr) base maxRetries true roll).result
      = { ok := false, error := some pwErr }
    ∧ (fetchResultForRoll cache o r (.error pwErr) base maxRetries true roll).fallbackInvoked
      = true
    ∧ (pwErr ≠ err.message →
        (fetchResultForRoll cache o r (.error pwErr) base maxRetries true roll).result.error
          ≠ some (err.message)) := by
  rw [fetchResultForRoll_fallback_err _ _ _ _ _ _ _ _ hmiss hres]
  refine ⟨rfl, rfl, fun hne => ?_⟩
  simp [hne]

/-- Witness for C7 at concrete inputs: the primary exhausts a budget of
0 retries on a 503, the Playwright fallback throws with its own message,
and that message is the one returned. -/
theorem fallback_reason_wins_witness :
    (fetchResultForRoll (fun _ => none) (fun _ => .error (.withStatus 503 "primary-down"))
        (fun _ => 0) (.error "pw-crashed") 300 0 true "KTU123").result
      = { ok := false, error := some "pw-crashed" }
    ∧ (fetchResultForRoll (fun _ => none) (fun _ => .error (.withStatus 503 "primary-down"))
        (fun _ => 0) (.error "pw-crashed") 300 0 true "KTU123").fallbackInvoked = true
    ∧ ("pw-crashed" ≠ FetchErr.message (.withStatus 503 "primary-down") →
        (fetchResultForRoll (fun _ => none)
          (fun _ => .error (.withStatus 503 "primary-down"))
          (fun _ => 0) (.error "pw-crashed") 300 0 true "KTU123").result.error
          ≠ some (FetchErr.message (.withStatus 503 "primary-down"))) := by
  have hres : (fetchWithRetries (fun _ => .error (.withStatus 503 "primary-down"))
      (fun _ => (0 : ℚ)) 300 0).result = .error (.withStatus 503 "primary-down") := by
    rw [fetchWithRetries, fetchFrom_stop _ _ _ _ _ _ rfl (Or.inr (by omega))]
  exact fallback_reason_wins (fun _ => none)
    (fun _ => .error (.withStatus 503 "primary-down")) (fun _ => 0) 300 0 "KTU123"
    (.withStatus 503 "primary-down") "pw-crashed" (by decide) hres

/-- C8 counterexample: a genuine fallback success (primary failed,
fallback invoked and succeeded) produces a result object whose
`servedByFallback` field is absent (`none`), not `some true` — the
source never sets such a key. -/
theorem servedByFallback_missing_cex :
    (fetchResultForRoll (fun _ => none) (fun _ => .error (.withStatus 503 "u"))
        (fun _ => 0) (.ok "rendered") 300 0 true "KTU123").fallbackInvoked = true
    ∧ (fetchResultForRoll (fun _ => none) (fun _ => .error (.withStatus 503 "u"))
        (fun _ => 0) (.ok "rendered") 300 0 true "KTU123").result.ok = true
    ∧ (fetchResultForRoll (fun _ => none) (fun _ => .error (.withStatus 503 "u"))
        (fun _ => 0) (.ok "rendered") 300 0 true "KTU123").result.servedByFallback
      ≠ some true
    ∧ (fetchResultForRoll (fun _ => none) (fun _ => .error (.withStatus 503 "u"))
        (fun _ => 0) (.ok "rendered") 300 0 true "KTU123").result.servedByFallback
      = none := by
  have hres : (fetchWithRetries (fun _ => .error (.withStatus 503 "u"))
      (fun _ => (0 : ℚ)) 300 0).result = .error (.withStatus 503 "u") := by
    rw [fetchWithRetries, fetchFrom_stop _ _ _ _ _ _ rfl (Or.inr (by omega))]
  rw [fetchResultForRoll_fallback_ok _ _ _ _ _ _ _ _ (by decide) hres]
  exact ⟨rfl, rfl, by simp, rfl⟩

/-- C8 (amended: the distinguishing tag is the marker header, not a
`servedByFallback` field): every successful fallback-served result
carries the header `x-playwright-fallback = 1` in its headers, and its
`servedByFallback` field is absent (`none`). -/
theorem fallback_marker_header (cache : String → Option String)
    (o : Nat → Except FetchErr Response) (r : Nat → ℚ)
    (base maxRetries : Nat) (roll : String) (err : FetchErr) (html : String)
    (hmiss : truthy (cache (cacheKeyFor roll)) = false)
    (hres : (fetchWithRetries o r base maxRetries).result = .error err) :
    (fetchResultForRoll cache o r (.ok html) base maxRetries true roll).result.headers
      = some [("x-playwright-fallback", "1")]
    ∧ (fetchResultForRoll cache o r (.ok html) base maxRetries true roll).result.ok = true
    ∧ (fetchResultForRoll cache o r (.ok html) base maxRetries true roll).result.servedByFallback
      = none := by
  rw [fetchResultForRoll_fallback_ok _ _ _ _ _ _ _ _ hmiss hres]
  exact ⟨rfl, rfl, rfl⟩

/-- Witness for the amended C8 at concrete inputs: a fallback success
after a transient failure that exhausted a budget of 0 retries. -/
theorem fallback_marker_header_witness :
    (fetchResultForRoll (fun _ => none) (fun _ => .error (.withStatus 502 "bad gateway"))
        (fun _ => 0) (.ok "rendered-page") 300 0 true "KTU777").result.headers
      = some [("x-playwright-fallback", "1")]
    ∧ (fetchResultForRoll (fun _ => none) (fun _ => .error (.withStatus 502 "bad gateway"))
        (fun _ => 0) (.ok "rendered-page") 300 0 true "KTU777").result.ok = true
    ∧ (fetchResultForRoll (fun _ => none) (fun _ => .error (.withStatus 502 "bad gateway"))
        (fun _ => 0) (.ok "rendered-page") 300 0 true
        "KTU777").result.servedByFallback = none := by
  have hres : (fetchWithRetries (fun _ => .error (.withStatus 502 "bad gateway"))
      (fun _ => (0 : ℚ)) 300 0).result = .error (.withStatus 502 "bad gateway") := by
    rw [fetchWithRetries, fetchFrom_stop _ _ _ _ _ _ rfl (Or.inr (by omega))]
  exact fallback_marker_header (fun _ => none)
    (fun _ => .error (.withStatus 502 "bad gateway")) (fun _ => 0) 300 0 "KTU777"
    (.withStatus 502 "bad gateway") "rendered-page" (by decide) hres

/-- C10 counterexample: a successful fetch whose body is the empty
string stores "" in the cache; "" is falsy for `if (cached)`, so a
second `resolve` within the TTL window misses again, fetches upstream
again and returns a headers field a second time — headers are observable
beyond the first successful fetch of the window. -/
theorem headers_observable_twice_cex :
    (fetchResultForRoll (fun _ => none)
        (fun _ => .ok ⟨"", [("content-type", "text/html")]⟩)
        (fun _ => 0) (.error "pw") 300 3 false "KTU123").result.headers
      = some [("content-type", "text/html")]
    ∧ (fetchResultForRoll (fun _ => none)
        (fun _ => .ok ⟨"", [("content-type", "text/html")]⟩)
        (fun _ => 0) (.error "pw") 300 3 false "KTU123").cache
      = cacheSet (fun _ => none) (cacheKeyFor "KTU123") ""
    ∧ (fetchResultForRoll (cacheSet (fun _ => none) (cacheKeyFor "KTU123") "")
        (fun _ => .ok ⟨"", [("content-type", "text/html")]⟩)
        (fun _ => 0) (.error "pw") 300 3 false "KTU123").result.headers
      = some [("content-type", "text/html")]
    ∧ (fetchResultForRoll (cacheSet (fun _ => none) (cacheKeyFor "KTU123") "")
        (fun _ => .ok ⟨"", [("content-type", "text/html")]⟩)
        (fun _ => 0) (.error "pw") 300 3 false "KTU123").result.fromCache
      = some false := by
  have hres : (fetchWithRetries
      (fun _ => .ok (⟨"", [("content-type", "text/html")]⟩ : Response))
      (fun _ => (0 : ℚ)) 300 3).result = .ok ⟨"", [("content-type", "text/html")]⟩ := by
    rw [fetchWithRetries, fetchFrom_ok _ _ _ _ _ _ rfl]
  rw [fetchResultForRoll_primary_ok _ _ _ _ _ _ _ _ _ (by decide) hres,
      fetchResultForRoll_primary_ok _ _ _ _ _ _ _ _ _ (by decide) hres]
  exact ⟨rfl, rfl, rfl, rfl⟩

/-- C10 (amended: the "at most once per TTL window" consequence needs a
non-empty body): a result served with `fromCache = some true` never
carries a headers field; a fresh primary success always carries the
upstream headers; and when the fetched body is non-empty a subsequent
`resolve` for the same roll is served from the cache with no headers
field. -/
theorem headers_only_on_fresh_fetch (cache : String → Option String)
    (o o2 : Nat → Except FetchErr Response) (r r2 : Nat → ℚ)
    (pw pw2 : Except String String) (base maxRetries base2 maxRetries2 : Nat)
    (pf pf2 : Bool) (roll : String) (resp : Response) :
    ((fetchResultForRoll cache o r pw base maxRetries pf roll).result.fromCache
        = some true →
      (fetchResultForRoll cache o r pw base maxRetries pf roll).result.headers = none)
    ∧ (truthy (cache (cacheKeyFor roll)) = false →
        (fetchWithRetries o r base maxRetries).result = .ok resp →
        (fetchResultForRoll cache o r pw base maxRetries pf roll).result.headers
          = some resp.headers
        ∧ (resp.data ≠ "" →
            (fetchResultForRoll
              ((fetchResultForRoll cache o r pw base maxRetries pf roll).cache)
              o2 r2 pw2 base2 maxRetries2 pf2 roll).result
            = { ok := true, fromCache := some true, data := some resp.data })) := by
  constructor
  · intro hfc
    rcases htt : truthy (cache (cacheKeyFor roll)) with _ | _
    · rcases hres : (fetchWithRetries o r base maxRetries).result with err | rsp
      · cases pf
        · rw [fetchResultForRoll_noFallback _ _ _ _ _ _ _ _ htt hres] at hfc
          simp at hfc
        · rcases pw with pwErr | html
          · rw [fetchResultForRoll_fallback_err _ _ _ _ _ _ _ _ htt hres] at hfc
            simp at hfc
          · rw [fetchResultForRoll_fallback_ok _ _ _ _ _ _ _ _ htt hres] at hfc
            simp at hfc
      · rw [fetchResultForRoll_primary_ok _ _ _ _ _ _ _ _ _ htt hres] at hfc
        simp at hfc
    · rw [fetchResultForRoll_hit _ _ _ _ _ _ _ _ htt]
  · intro htt hres
    rw [fetchResultForRoll_primary_ok _ _ _ _ _ _ _ _ _ htt hres]
    refine ⟨rfl, fun hne => ?_⟩
    dsimp only
    have hb : resp.data.isEmpty = false := by
      rcases hb2 : resp.data.isEmpty with _ | _
      · rfl
      · exact absurd ((String.isEmpty_iff resp.data).mp hb2) hne
    have ht2 : truthy (cacheSet cache (cacheKeyFor roll) resp.data (cacheKeyFor roll))
        = true := by
      simp [cacheSet, truthy, hb]
    rw [fetchResultForRoll_hit _ _ _ _ _ _ _ _ ht2]
    simp [cacheSet]

/-- Witness for the amended C10 at concrete inputs: a fresh fetch of a
non-empty body returns the upstream headers, and the follow-up call is
served from the cache with no headers field. -/
theorem headers_only_on_fresh_fetch_witness :
    (fetchResultForRoll (fun _ => none)
        (fun _ => .ok ⟨"page", [("content-type", "text/html")]⟩)
        (fun _ => 0) (.error "pw") 300 3 false "KTU123").result.headers
      = some [("content-type", "text/html")]
    ∧ (fetchResultForRoll
        ((fetchResultForRoll (fun _ => none)
          (fun _ => .ok ⟨"page", [("content-type", "text/html")]⟩)
          (fun _ => 0) (.error "pw") 300 3 false "KTU123").cache)
        (fun _ => .ok ⟨"other", []⟩) (fun _ => 0) (.error "pw") 300 3 false
        "KTU123").result
      = { ok := true, fromCache := some true, data := some "page" } := by
  have hres : (fetchWithRetries
      (fun _ => .ok (⟨"page", [("content-type", "text/html")]⟩ : Response))
      (fun _ => (0 : ℚ)) 300 3).result
      = .ok ⟨"page", [("content-type", "text/html")]⟩ := by
    rw [fetchWithRetries, fetchFrom_ok _ _ _ _ _ _ rfl]
  have hmain := (headers_only_on_fresh_fetch (fun _ => none)
    (fun _ => .ok ⟨"page", [("content-type", "text/html")]⟩)
    (fun _ => .ok ⟨"other", []⟩) (fun _ => 0) (fun _ => 0) (.error "pw") (.error "pw")
    300 3 300 3 false false "KTU123"
    ⟨"page", [("content-type", "text/html")]⟩).2 (by decide) hres
  exact ⟨hmain.1, hmain.2 (by decide)⟩

end KTU
